import Mathlib

/-!
Verification of the outbox-pattern notification delivery pipeline
(`notification-service`): a shallow embedding of the queue store, the
change-feed dispatcher, the retry/backoff engine, the DLQ escalation
processor and the data-masking and DynamoDB-decoding utilities, together
with theorems settling the specified invariants and contracts.

Conventions of the embedding:
* JavaScript strings are modelled by `String` (and by `List Char` where
  character-level reasoning is needed), ISO-8601 timestamps by integers
  (`Int`), and JavaScript numbers by `Int` (every number handled by this
  code is an integer count or timestamp) or by `ℚ` for backoff delays.
* Fields of a JavaScript object that may be `undefined` are modelled as
  `Option` values; `none` stands for an absent/undefined field.
* A `throw` is modelled by `Except.error`, carrying the thrown error.
* Asynchronous calls complete atomically in order; `await` is sequencing.
-/

namespace Notif

/-- A JavaScript `Error` value: `name`, constructor name and `message`.
In the source `error.name || error.constructor.name` selects the
constructor name when `name` is the empty string (falsy). -/
structure JsError where
  name : String
  ctorName : String
  message : String
deriving Repr, DecidableEq

/-- Effective error name, `error.name || error.constructor.name`
(`retry-helper.js`, `isRetryableError`). -/
def errorNameOf (e : JsError) : String :=
  if e.name = "" then e.ctorName else e.name

/-- Effective error message, `error.message || ''`. -/
def errorMessageOf (e : JsError) : String :=
  e.message

/-- Checks whether `needle` occurs at the head of `hay` (character lists). -/
def charsStartWith : List Char → List Char → Bool
  | _, [] => true
  | [], _ :: _ => false
  | h :: hs, n :: ns => h == n && charsStartWith hs ns

/-- Checks whether `needle` occurs anywhere inside `hay`, the semantics of
JavaScript `String.prototype.includes`. -/
def charsContain : List Char → List Char → Bool
  | [], needle => needle.isEmpty
  | h :: t, needle => charsStartWith (h :: t) needle || charsContain t needle

/-- JavaScript `hay.includes(needle)` on `String`s. -/
def strIncludes (hay needle : String) : Bool :=
  charsContain hay.data needle.data

/-- The allow-list of retryable error categories
(`retry-helper.js` line 56, `retryableErrors`). -/
def retryableErrors : List String :=
  ["ThrottlingException",
   "ProvisionedThroughputExceededException",
   "ServiceUnavailableException",
   "InternalServerErrorException",
   "RequestTimeout",
   "NetworkingError",
   "ECONNRESET",
   "ENOTFOUND",
   "ECONNREFUSED",
   "ETIMEDOUT"]

/-- `RetryHelper.isRetryableError` (`retry-helper.js` lines 54-75): an
error is retryable when its effective name or message contains one of the
allow-listed category strings. -/
def isRetryableError (e : JsError) : Bool :=
  retryableErrors.any (fun r =>
    strIncludes (errorNameOf e) r || strIncludes (errorMessageOf e) r)

/-- Pre-jitter backoff delay for (0-indexed) failed attempt `attempt`:
`Math.min(baseDelay * Math.pow(factor, attempt), maxDelay)`
(`retry-helper.js` line 29). -/
def backoffDelay (baseDelay maxDelay factor : ℚ) (attempt : Nat) : ℚ :=
  min (baseDelay * factor ^ attempt) maxDelay

/-- Delay actually slept after failed attempt `attempt`: the pre-jitter
delay, multiplied by `0.5 + Math.random() * 0.5` when jitter is enabled
(`retry-helper.js` lines 29-34). `rand` supplies the `Math.random()` value
drawn after attempt `attempt`; its value lies in `[0, 1)`. -/
def appliedDelay (baseDelay maxDelay factor : ℚ) (jitter : Bool)
    (rand : Nat → ℚ) (attempt : Nat) : ℚ :=
  let d := backoffDelay baseDelay maxDelay factor attempt
  if jitter then d * (1/2 + rand attempt * (1/2)) else d

/-- Result of a whole `RetryHelper.exponentialBackoff` run: the final
outcome (`Except.error` models the rethrown error), the number of times
the wrapped operation was invoked, and the list of slept delays. -/
structure BackoffRun (α : Type) where
  result : Except JsError α
  calls : Nat
  delays : List ℚ
deriving Repr

/-- Loop body of `RetryHelper.exponentialBackoff` (`retry-helper.js`
lines 14-45), from invocation index `attempt` with `remaining` further
attempts allowed after the current one. `op k` is the outcome of the
`k`-th invocation of the wrapped `fn`. When the current attempt is the
last permitted one (`remaining = 0`) its error is rethrown directly
(source line 25); otherwise a delay is computed and slept and the loop
continues. -/
def backoffRun (op : Nat → Except JsError α) (baseDelay maxDelay factor : ℚ)
    (jitter : Bool) (rand : Nat → ℚ) : Nat → Nat → BackoffRun α
  | attempt, 0 => ⟨op attempt, attempt + 1, []⟩
  | attempt, remaining + 1 =>
    match op attempt with
    | Except.ok v => ⟨Except.ok v, attempt + 1, []⟩
    | Except.error _ =>
      let rest := backoffRun op baseDelay maxDelay factor jitter rand
        (attempt + 1) remaining
      ⟨rest.result, rest.calls,
        appliedDelay baseDelay maxDelay factor jitter rand attempt :: rest.delays⟩

/-- `RetryHelper.exponentialBackoff(fn, maxRetries, baseDelay, maxDelay,
factor, jitter)` (`retry-helper.js` lines 4-48): runs `fn` for attempts
`0..maxRetries`, returning the first success, otherwise rethrowing the
error of the final attempt. Source defaults: `maxRetries = 3`,
`baseDelay = 1000`, `maxDelay = 30000`, `factor = 2`, `jitter = true`. -/
def exponentialBackoff (op : Nat → Except JsError α) (maxRetries : Nat)
    (baseDelay maxDelay factor : ℚ) (jitter : Bool) (rand : Nat → ℚ) :
    BackoffRun α :=
  backoffRun op baseDelay maxDelay factor jitter rand 0 maxRetries

/-- The `wrappedOperation` closure of `RetryHelper.withRetry`
(`retry-helper.js` lines 87-96): it catches the operation's error, tests
`retryCondition`, and rethrows the error in both branches of the test —
the branches of the source's `if (!retryCondition(error))` are
identical, so the test has no effect on the outcome. -/
def wrappedOperation (retryCondition : JsError → Bool)
    (op : Nat → Except JsError α) (k : Nat) : Except JsError α :=
  match op k with
  | Except.ok v => Except.ok v
  | Except.error e =>
    if ¬ retryCondition e then Except.error e else Except.error e

/-- `RetryHelper.withRetry(operation, options)` (`retry-helper.js` lines
77-106): wraps the operation with the (ineffective) retry-condition check
and delegates to `exponentialBackoff`. Option defaults as in the source. -/
def withRetry (op : Nat → Except JsError α) (maxRetries : Nat)
    (baseDelay maxDelay factor : ℚ) (jitter : Bool)
    (retryCondition : JsError → Bool) (rand : Nat → ℚ) : BackoffRun α :=
  exponentialBackoff (wrappedOperation retryCondition op) maxRetries
    baseDelay maxDelay factor jitter rand

/-- `RetryHelper.retryWithBackoff(operation, context)` (`retry-helper.js`
lines 108-121): `withRetry` with `maxRetries = 3`, `baseDelay = 1000`,
remaining options defaulted, and `isRetryableError` as retry condition. -/
def retryWithBackoff (op : Nat → Except JsError α) (rand : Nat → ℚ) :
    BackoffRun α :=
  withRetry op 3 1000 30000 2 true isRetryableError rand

/-- Provider success receipt, the `{messageId, status, provider}` object
returned by `sendEmail` / `sendSMS` (`notification-service.js`). -/
structure SendResult where
  messageId : String
  sendStatus : String
  provider : String
deriving Repr, DecidableEq

/-- An outbox record as stored in DynamoDB and as carried inside stream /
DLQ messages. Every field except the key may be absent (`undefined` in
JavaScript, or a missing attribute in a DynamoDB item), hence `Option`.
`notifType` embeds the source's `type` field, `errorMsg` its `error`
field, `content` the immutable rendered content (kept opaque). The `ttl`
and `createdAt` attributes are never read by the verified operations and
are elided. -/
structure OutboxEntry where
  id : String
  notificationId : Option String := none
  notifType : Option String := none
  recipient : Option String := none
  content : Option String := none
  priority : Option String := none
  scheduledAt : Option Int := none
  status : Option String := none
  retryCount : Option Nat := none
  maxRetries : Option Nat := none
  errorMsg : Option String := none
  result : Option SendResult := none
  updatedAt : Option Int := none
deriving Repr, DecidableEq

/-- The outbox DynamoDB table: an association list from the `id` key to
the item. Well-formed stores bind each key at most once; all operations
below read and write through the key. -/
def Store : Type := List (String × OutboxEntry)

instance : DecidableEq Store := by
  unfold Store
  infer_instance

instance : Repr Store := by
  unfold Store
  infer_instance

instance : Membership (String × OutboxEntry) Store := by
  unfold Store
  infer_instance

instance : Append Store := ⟨fun a b => List.append a b⟩

/-- Reads the item with key `outboxId` (DynamoDB `GetCommand`). -/
def lookupEntry (s : Store) (outboxId : String) : Option OutboxEntry :=
  match s with
  | [] => none
  | p :: rest => if p.1 == outboxId then some p.2 else lookupEntry rest outboxId

/-- Writes `e` under key `outboxId`, replacing any existing item with the
same key (DynamoDB `PutCommand` / the write-back of an `UpdateCommand`). -/
def putEntry (s : Store) (outboxId : String) (e : OutboxEntry) : Store :=
  match s with
  | [] => [(outboxId, e)]
  | p :: rest =>
    if p.1 == outboxId then (outboxId, e) :: rest
    else p :: putEntry rest outboxId e

/-- Truthiness of an optional JavaScript string: `undefined`, `null` and
`''` are falsy, every other string is truthy. -/
def jsTruthyStr : Option String → Bool
  | none => false
  | some s => ¬ s = ""

/-- A JavaScript `Error` whose message is `msg` (plain `new Error(msg)`). -/
def mkError (msg : String) : JsError :=
  ⟨"Error", "Error", msg⟩

/-- The `ValidationException` DynamoDB raises when an update expression
reads an attribute that does not exist on the item, as
`retryCount = retryCount + :increment` does on an item with no
`retryCount` attribute. -/
def validationException : JsError :=
  ⟨"ValidationException", "ValidationException",
   "The provided expression refers to an attribute that does not exist in the item"⟩

/-- `updateOutboxEntryStatus(outboxId, status, error = null, result =
null)` (`notification-service.js` lines 305-346; the copy in
`outbox-service.js` lines 97-133 is the same code without the `result`
branch and is recovered by passing `result := none`). The source issues a
DynamoDB `UpdateCommand` with no `ConditionExpression`, so DynamoDB
semantics apply: when the key is absent the update is an upsert creating
a new item holding only the written attributes, and an update expression
reading the missing `retryCount` attribute (the `if (error)` branch)
fails with a `ValidationException`. `SET` clauses: always `status` and
`updatedAt`; when `error` is truthy also `error` and
`retryCount = retryCount + 1`; when `result` is truthy also `result`. -/
def updateOutboxEntryStatus (s : Store) (outboxId status : String)
    (error : Option String) (result : Option SendResult) (now : Int) :
    Except JsError Store :=
  match lookupEntry s outboxId with
  | some e =>
    if jsTruthyStr error then
      match e.retryCount with
      | some rc =>
        Except.ok (putEntry s outboxId
          { e with status := some status, updatedAt := some now,
                   errorMsg := error, retryCount := some (rc + 1),
                   result := if result.isSome then result else e.result })
      | none => Except.error validationException
    else
      Except.ok (putEntry s outboxId
        { e with status := some status, updatedAt := some now,
                 result := if result.isSome then result else e.result })
  | none =>
    if jsTruthyStr error then Except.error validationException
    else
      Except.ok (putEntry s outboxId
        { id := outboxId, status := some status, updatedAt := some now,
          result := result })

/-- `storeInOutbox(notification, renderedContent)`
(`notification-service.js` lines 125-157): builds the outbox entry with
status `pending`, `retryCount 0`, `maxRetries 3` and the freshly
generated `uuidv4()` key `freshId`, and `PutCommand`s it. -/
def storeInOutbox (s : Store) (freshId notificationId ntype recipient
    content priority : String) (scheduledAt : Option Int) (now : Int) :
    OutboxEntry × Store :=
  let e : OutboxEntry :=
    { id := freshId, notificationId := some notificationId,
      notifType := some ntype, recipient := some recipient,
      content := some content, priority := some priority,
      scheduledAt := scheduledAt, status := some "pending",
      retryCount := some 0, maxRetries := some 3,
      errorMsg := none, result := none, updatedAt := some now }
  (e, putEntry s freshId e)

/-- `getOutboxEntry(outboxId)` (`outbox-service.js` lines 74-95): a
`GetCommand` that throws `'Outbox entry not found'` when the item is
absent. -/
def getOutboxEntry (s : Store) (outboxId : String) : Except JsError OutboxEntry :=
  match lookupEntry s outboxId with
  | some e => Except.ok e
  | none => Except.error (mkError "Outbox entry not found")

/-- `requeueFailedNotification(outboxId)` (`outbox-service.js` lines
258-285): reads the entry, rejects it unless its status is `failed`,
rejects it when `retryCount >= maxRetries` (a comparison that is false
in JavaScript when either operand is `undefined`), then resets the
status to `pending` through `updateOutboxEntryStatus` with no error. On
success the returned number is the `retryCount` reported back to the
caller. -/
def requeueFailedNotification (s : Store) (outboxId : String) (now : Int) :
    Except JsError (Store × Option Nat) :=
  match getOutboxEntry s outboxId with
  | Except.error e => Except.error e
  | Except.ok entry =>
    if ¬ entry.status = some "failed" then
      Except.error (mkError "Only failed notifications can be requeued")
    else if (match entry.retryCount, entry.maxRetries with
             | some rc, some m => decide (m ≤ rc)
             | _, _ => false) then
      Except.error (mkError "Maximum retry attempts exceeded")
    else
      match updateOutboxEntryStatus s outboxId "pending" none none now with
      | Except.ok s' => Except.ok (s', entry.retryCount)
      | Except.error e => Except.error e

/-- The observable state threaded through the dispatch and escalation
handlers: the outbox table, the number of provider send calls issued so
far (SES `SendEmailCommand` / SNS `PublishCommand`), and the metric
counter names recorded so far, in order. -/
structure SysState where
  store : Store
  providerCalls : Nat
  metrics : List String
deriving Repr, DecidableEq

/-- The value returned by a successful `processOutboxEntry`: the
`{status: 'scheduled'}` or `{status: 'sent', messageId}` object. -/
structure ProcessOk where
  procStatus : String
  messageId : Option String
deriving Repr, DecidableEq

/-- Truthiness-guarded future-schedule test
`outboxEntry.scheduledAt && new Date(outboxEntry.scheduledAt) > new
Date()` (`stream-processor.js` line 113, `notification-service.js` line
168). -/
def scheduledInFuture (entry : OutboxEntry) (now : Int) : Bool :=
  match entry.scheduledAt with
  | some t => decide (now < t)
  | none => false

/-- `processOutboxEntry(outboxEntry)` (`notification-service.js` lines
159-220). `provider` gives the normalized outcome of each provider send
call, indexed by the running count of provider calls; the email and SMS
paths both reduce to one provider call producing a `SendResult` or
throwing. The entry's type is dispatched on; an unsupported type throws
without a provider call. On success the store row is updated to `sent`
with the result and a `notifications.sent` counter is recorded; in the
catch block the row is updated to `failed` with the error message
(which increments `retryCount` when the message is truthy), a
`notifications.failed` counter is recorded and the error is rethrown. An
error thrown by the status update itself propagates out of the handler
or the catch block. `processSendOutcome` is the tail of the function
from the provider call's outcome on: the success path (source lines
185-200) and the catch block (source lines 201-219). -/
def processSendOutcome (entry : OutboxEntry) (now : Int)
    (sendOutcome : Except JsError SendResult) (σ₁ : SysState) :
    Except JsError ProcessOk × SysState :=
  match sendOutcome with
  | Except.ok r =>
    match updateOutboxEntryStatus σ₁.store entry.id "sent" none (some r) now with
    | Except.ok st =>
      (Except.ok ⟨"sent", some r.messageId⟩,
       { σ₁ with store := st,
                 metrics := σ₁.metrics ++ ["notifications.sent"] })
    | Except.error u => (Except.error u, σ₁)
  | Except.error e =>
    match updateOutboxEntryStatus σ₁.store entry.id "failed"
        (some e.message) none now with
    | Except.ok st =>
      (Except.error e,
       { σ₁ with store := st,
                 metrics := σ₁.metrics ++ ["notifications.failed"] })
    | Except.error u => (Except.error u, σ₁)

/-- Head of `processOutboxEntry`: the future-schedule early return
(source lines 168-174, yielding `{status: 'scheduled'}` with no store
change and no provider call) and the dispatch on `outboxEntry.type`
(source lines 176-183); then `processSendOutcome`. -/
def processOutboxEntry (provider : Nat → Except JsError SendResult)
    (entry : OutboxEntry) (now : Int) (σ : SysState) :
    Except JsError ProcessOk × SysState :=
  if scheduledInFuture entry now then
    (Except.ok ⟨"scheduled", none⟩, σ)
  else if entry.notifType = some "email" ∨ entry.notifType = some "sms" then
    processSendOutcome entry now (provider σ.providerCalls)
      { σ with providerCalls := σ.providerCalls + 1 }
  else
    processSendOutcome entry now
      (Except.error (mkError
        ("Unsupported notification type: " ++ (entry.notifType.getD "undefined"))))
      σ

/-- The retry loop of `RetryHelper.exponentialBackoff` instantiated at a
stateful operation (the source operations close over the mutable store
and provider clients): run `op`, return the first success, retry every
error while attempts remain (the `retryCondition` supplied through
`withRetry` is ineffective, see `wrappedOperation`), and rethrow the
last error. The slept delays do not affect the state and are dropped. -/
def backoffRunSt (op : SysState → Except JsError α × SysState) :
    Nat → SysState → Except JsError α × SysState
  | 0, σ => op σ
  | remaining + 1, σ =>
    match op σ with
    | (Except.ok v, σ') => (Except.ok v, σ')
    | (Except.error _, σ') => backoffRunSt op remaining σ'

/-- A DynamoDB stream record as consumed by `StreamProcessor.processRecord`:
its `eventName`, and the decoded `NewImage` when both the `dynamodb`
envelope and its `NewImage` are present (`none` covers both absences).
Decoding of the raw image (`convertDynamoDBRecord`) is modelled
separately by `convertDynamoDBValue`; here the decoded entry's field
accesses are modelled by the `Option` fields of `OutboxEntry`. -/
structure StreamRecord where
  eventName : String
  newImage : Option OutboxEntry
deriving Repr, DecidableEq

instance : DecidableEq (Except JsError ProcessOk) := fun a b =>
  match a, b with
  | Except.ok x, Except.ok y =>
    if h : x = y then isTrue (by rw [h]) else isFalse (by simp [h])
  | Except.ok _, Except.error _ => isFalse (by simp)
  | Except.error _, Except.ok _ => isFalse (by simp)
  | Except.error e, Except.error f =>
    if h : e = f then isTrue (by rw [h]) else isFalse (by simp [h])

/-- Outcome of `StreamProcessor.processRecord` on one record: skipped
without touching anything, or dispatched with the final outcome of the
retry-wrapped `processOutboxEntry`. -/
inductive RecordOutcome where
  | skipped
  | dispatched (r : Except JsError ProcessOk)
deriving Repr, DecidableEq

/-- `StreamProcessor.processRecord(record)` (`stream-processor.js` lines
81-128): skips records that are not `INSERT`s with a `NewImage`, skips
decoded entries whose status is not `pending`, skips entries scheduled in
the future, and otherwise runs `processOutboxEntry` under
`RetryHelper.retryWithBackoff` (`maxRetries = 3`, so up to four
invocations, every error retried). -/
def streamProcessRecord (provider : Nat → Except JsError SendResult)
    (rec : StreamRecord) (now : Int) (σ : SysState) :
    RecordOutcome × SysState :=
  if ¬ rec.eventName = "INSERT" then (RecordOutcome.skipped, σ)
  else
    match rec.newImage with
    | none => (RecordOutcome.skipped, σ)
    | some entry =>
      if ¬ entry.status = some "pending" then (RecordOutcome.skipped, σ)
      else if scheduledInFuture entry now then (RecordOutcome.skipped, σ)
      else
        let (r, σ') := backoffRunSt (processOutboxEntry provider entry now) 3 σ
        (RecordOutcome.dispatched r, σ')

/-- The three envelope shapes accepted by `DLQProcessor.processMessage`
(`dlq-processor` in `metrics-service.js`, lines 317-329): a wrapped
stream-processor failure carrying the decoded `NewImage`, a direct
reference by `outboxId`, the outbox entry inlined in the message (its
`id` truthy), or none of the shapes. -/
inductive DLQMessage where
  | streamFailure (entry : OutboxEntry)
  | byRef (outboxId : String)
  | direct (entry : OutboxEntry)
  | malformed
deriving Repr

/-- The `{status, retryable?}` object returned by
`DLQProcessor.processMessage`. -/
structure DLQOutcome where
  dlqStatus : String
  retryable : Option Bool
deriving Repr, DecidableEq

/-- Entry extraction step of `DLQProcessor.processMessage`: the wrapped
and inline shapes yield their entry, the reference shape reads the store
(`getOutboxEntry`, throwing when absent), and an unrecognized shape
throws `'Unable to extract outbox entry from DLQ message'`. -/
def dlqExtract (s : Store) : DLQMessage → Except JsError OutboxEntry
  | DLQMessage.streamFailure entry => Except.ok entry
  | DLQMessage.byRef outboxId => getOutboxEntry s outboxId
  | DLQMessage.direct entry => Except.ok entry
  | DLQMessage.malformed =>
    Except.error (mkError "Unable to extract outbox entry from DLQ message")

/-- The retry budget the DLQ processor compares against:
`outboxEntry.maxRetries || 3`, so an absent or zero (falsy) `maxRetries`
defaults to 3. -/
def dlqMaxRetries (entry : OutboxEntry) : Nat :=
  match entry.maxRetries with
  | some m => if m = 0 then 3 else m
  | none => 3

/-- The guard `outboxEntry.retryCount >= (outboxEntry.maxRetries || 3)`
(`metrics-service.js` line 340); in JavaScript the comparison is false
when `retryCount` is `undefined`. -/
def dlqBudgetExceeded (entry : OutboxEntry) : Bool :=
  match entry.retryCount with
  | some rc => decide (dlqMaxRetries entry ≤ rc)
  | none => false

/-- `DLQProcessor.markAsPermanentlyFailed(outboxEntry)`
(`metrics-service.js` lines 412-440): updates the row to
`permanently_failed` with error `'Exceeded maximum retry attempts'`,
then records the `notifications.permanently_failed` counter (the metric
sink never throws). An error from the update is rethrown. -/
def markAsPermanentlyFailed (entry : OutboxEntry) (now : Int) (σ : SysState) :
    Except JsError Unit × SysState :=
  match updateOutboxEntryStatus σ.store entry.id "permanently_failed"
      (some "Exceeded maximum retry attempts") none now with
  | Except.ok st =>
    (Except.ok (),
     { σ with store := st,
              metrics := σ.metrics ++ ["notifications.permanently_failed"] })
  | Except.error u => (Except.error u, σ)

/-- `DLQProcessor.retryNotification(outboxEntry)` (`metrics-service.js`
lines 377-410): runs `processOutboxEntry` under
`RetryHelper.exponentialBackoff` with `maxRetries = 2` (three
invocations at most; base delay 2000ms, cap 10000ms, factor 2, jitter
on — the delays do not affect the state). In the catch block the row is
updated to `failed` with `` `DLQ retry failed: ${error.message}` `` and
the error is rethrown; an error from that update propagates instead. -/
def retryNotification (provider : Nat → Except JsError SendResult)
    (entry : OutboxEntry) (now : Int) (σ : SysState) :
    Except JsError Unit × SysState :=
  match backoffRunSt (processOutboxEntry provider entry now) 2 σ with
  | (Except.ok _, σ') => (Except.ok (), σ')
  | (Except.error e, σ') =>
    match updateOutboxEntryStatus σ'.store entry.id "failed"
        (some ("DLQ retry failed: " ++ e.message)) none now with
    | Except.ok st => (Except.error e, { σ' with store := st })
    | Except.error u => (Except.error u, σ')

/-- `DLQProcessor.processMessage(record)` (`metrics-service.js` lines
306-375): extracts the outbox entry from one of the accepted envelope
shapes; when `retryCount >= (maxRetries || 3)` it marks the entry
permanently failed and returns `{status: 'permanently_failed'}` without
any delivery attempt; otherwise it retries the notification and returns
`{status: 'success'}`. Every error reaching the outer catch yields
`{status: 'failed', retryable: isRetryableError(error)}`. -/
def dlqProcessMessage (provider : Nat → Except JsError SendResult)
    (msg : DLQMessage) (now : Int) (σ : SysState) : DLQOutcome × SysState :=
  match dlqExtract σ.store msg with
  | Except.error e => (⟨"failed", some (isRetryableError e)⟩, σ)
  | Except.ok entry =>
    if dlqBudgetExceeded entry then
      match markAsPermanentlyFailed entry now σ with
      | (Except.ok _, σ') => (⟨"permanently_failed", none⟩, σ')
      | (Except.error u, σ') => (⟨"failed", some (isRetryableError u)⟩, σ')
    else
      match retryNotification provider entry now σ with
      | (Except.ok _, σ') => (⟨"success", none⟩, σ')
      | (Except.error e, σ') => (⟨"failed", some (isRetryableError e)⟩, σ')

/-- A DynamoDB attribute wrapper as it appears in a stream image or DLQ
envelope: exactly one tag with its payload. `N`/`NS` payloads are the
decimal strings DynamoDB transmits; `B`/`BS` payloads are modelled by
their base64 strings. -/
inductive DDBValue where
  | S (s : String)
  | N (s : String)
  | B (s : String)
  | BOOL (b : Bool)
  | NULL (b : Bool)
  | L (xs : List DDBValue)
  | M (kvs : List (String × DDBValue))
  | SS (xs : List String)
  | NS (xs : List String)
  | BS (xs : List String)
deriving Repr

/-- A decoded JavaScript value as produced by `convertDynamoDBValue`;
`wrapped` is the fall-through case where the raw attribute wrapper
object itself is returned. -/
inductive JSVal where
  | str (s : String)
  | num (n : Int)
  | bool (b : Bool)
  | jsNull
  | arr (xs : List JSVal)
  | obj (kvs : List (String × JSVal))
  | wrapped (v : DDBValue)
deriving Repr

/-- JavaScript `Number(s)`, modelled on the integer numerals this system
stores (counts and epoch timestamps). -/
def jsNumber (s : String) : Int :=
  s.toInt?.getD 0

mutual

/-- `convertDynamoDBValue(value)` (`stream-processor.js` lines 140-160;
`DLQProcessor.convertDynamoDBValue` in `metrics-service.js` lines
452-471 is the identical code). Each `if (value.TAG)` tests the payload
for JavaScript truthiness: an empty string, `false`, or `NULL: false`
payload is falsy, so the chain falls through every test and the final
`return value` hands back the wrapper object itself. Arrays and objects
(`L`, `M`, `SS`, `NS`, `BS`) are always truthy, even when empty. -/
def convertDynamoDBValue : DDBValue → JSVal
  | DDBValue.S s => if ¬ s = "" then JSVal.str s else JSVal.wrapped (DDBValue.S s)
  | DDBValue.N s =>
    if ¬ s = "" then JSVal.num (jsNumber s) else JSVal.wrapped (DDBValue.N s)
  | DDBValue.B s => if ¬ s = "" then JSVal.str s else JSVal.wrapped (DDBValue.B s)
  | DDBValue.BOOL b => if b then JSVal.bool b else JSVal.wrapped (DDBValue.BOOL b)
  | DDBValue.NULL b => if b then JSVal.jsNull else JSVal.wrapped (DDBValue.NULL b)
  | DDBValue.L xs => JSVal.arr (convertDynamoDBList xs)
  | DDBValue.M kvs => JSVal.obj (convertDynamoDBPairs kvs)
  | DDBValue.SS xs => JSVal.arr (xs.map JSVal.str)
  | DDBValue.NS xs => JSVal.arr (xs.map (fun s => JSVal.num (jsNumber s)))
  | DDBValue.BS xs => JSVal.arr (xs.map JSVal.str)

/-- Elementwise decoding of a DynamoDB `L` payload,
`value.L.map(item => this.convertDynamoDBValue(item))`. -/
def convertDynamoDBList : List DDBValue → List JSVal
  | [] => []
  | v :: vs => convertDynamoDBValue v :: convertDynamoDBList vs

/-- Keywise decoding of a DynamoDB `M` payload or of a whole image
(`convertDynamoDBRecord`, `stream-processor.js` lines 130-138). -/
def convertDynamoDBPairs : List (String × DDBValue) → List (String × JSVal)
  | [] => []
  | (k, v) :: kvs => (k, convertDynamoDBValue v) :: convertDynamoDBPairs kvs

end

/-- Splits a character list on a separator character, the semantics of
JavaScript `String.prototype.split` with a one-character separator. -/
def splitOnChar (sep : Char) : List Char → List (List Char)
  | [] => [[]]
  | c :: rest =>
    if c == sep then [] :: splitOnChar sep rest
    else
      match splitOnChar sep rest with
      | [] => [[c]]
      | g :: gs => (c :: g) :: gs

/-- `maskSensitiveData(data)` (`notification-service.js` lines 440-453)
on character lists: falsy (empty) data is returned as is; data containing
`'@'` is masked as the first two characters of the part before the first
`'@'`, then `'***@'`, then the part between the first and second `'@'`;
data starting with `'+'` is masked as its first three characters, then
`'***'`, then its last two characters; anything else is returned
unmasked. `substring` clamps out-of-range indices exactly as `take` and
the truncated-subtraction `drop` do. -/
def maskSensitiveData (data : List Char) : List Char :=
  if data = [] then data
  else if charsContain data ['@'] then
    let parts := splitOnChar '@' data
    let localPart := parts.getD 0 []
    let domain := parts.getD 1 []
    localPart.take 2 ++ "***@".data ++ domain
  else if (match data with | '+' :: _ => true | _ => false) then
    data.take 3 ++ "***".data ++ data.drop (data.length - 2)
  else data

/-- The digits of a recipient string, used only to state the specified
phone mask. -/
def phoneDigits (p : List Char) : List Char :=
  p.filter Char.isDigit

/-- Modelled from the spec: the phone mask as the specification words it
— an E.164 number reduced to its first three and last two digits with
`'***'` between. Stated for comparison with `maskSensitiveData`. -/
def specPhoneMask (p : List Char) : List Char :=
  (phoneDigits p).take 3 ++ "***".data
    ++ (phoneDigits p).drop ((phoneDigits p).length - 2)

/-- One operation of the pipeline acting on the outbox store, closing the
claims' "any sequence of enqueue, dispatch, retry, escalation and
status-update operations". `enqueue` is `storeInOutbox` with the
`uuidv4()` freshness of the generated key as a side condition; `process`
is a bare `processOutboxEntry` as invoked by
`retryFailedNotifications` and `processScheduledNotifications`;
`dispatch` is a stream-processor record delivery; `escalate` is a DLQ
message delivery; `requeue` is the manual `requeueFailedNotification`;
`updateStatus` is a direct `updateOutboxEntryStatus` call. Steps not
changing the store are included through their defining functions; failed
operations that never produced a new store yield no step. -/
inductive Step : Store → Store → Prop
  | enqueue (s : Store) (freshId notificationId ntype recipient content
      priority : String) (scheduledAt : Option Int) (now : Int) (s' : Store)
      (hfresh : lookupEntry s freshId = none)
      (heq : (storeInOutbox s freshId notificationId ntype recipient content
        priority scheduledAt now).2 = s') : Step s s'
  | process {s : Store} (provider : Nat → Except JsError SendResult)
      (entry : OutboxEntry) (now : Int) (pc : Nat) (ms : List String)
      (σ' : SysState) (r : Except JsError ProcessOk)
      (heq : processOutboxEntry provider entry now ⟨s, pc, ms⟩ = (r, σ')) :
      Step s σ'.store
  | dispatch {s : Store} (provider : Nat → Except JsError SendResult)
      (rec : StreamRecord) (now : Int) (pc : Nat) (ms : List String)
      (σ' : SysState) (r : RecordOutcome)
      (heq : streamProcessRecord provider rec now ⟨s, pc, ms⟩ = (r, σ')) :
      Step s σ'.store
  | escalate {s : Store} (provider : Nat → Except JsError SendResult)
      (msg : DLQMessage) (now : Int) (pc : Nat) (ms : List String)
      (σ' : SysState) (out : DLQOutcome)
      (heq : dlqProcessMessage provider msg now ⟨s, pc, ms⟩ = (out, σ')) :
      Step s σ'.store
  | requeue {s : Store} (outboxId : String) (now : Int) (s' : Store)
      (rc : Option Nat)
      (heq : requeueFailedNotification s outboxId now = Except.ok (s', rc)) :
      Step s s'
  | updateStatus {s : Store} (outboxId status : String) (error : Option String)
      (result : Option SendResult) (now : Int) (s' : Store)
      (heq : updateOutboxEntryStatus s outboxId status error result now
        = Except.ok s') :
      Step s s'

/-- Stores reachable from the empty outbox table by pipeline steps. -/
inductive ReachableStore : Store → Prop
  | init : ReachableStore []
  | step {s s' : Store} : ReachableStore s → Step s s' → ReachableStore s'

/-- Pointwise retry-count monotonicity between two stores: every entry of
`s` still exists in `s'` with a retry count at least as large. -/
def StoreLE (s s' : Store) : Prop :=
  ∀ k e rc, lookupEntry s k = some e → e.retryCount = some rc →
    ∃ e' rc', lookupEntry s' k = some e' ∧ e'.retryCount = some rc' ∧ rc ≤ rc'

/-- One entry's conformance to the claimed retry-budget invariant: the
retry count does not exceed the maximum unless the status is
`permanently_failed` (vacuous when either counter is absent). -/
def withinRetryBudget (e : OutboxEntry) : Bool :=
  match e.retryCount, e.maxRetries with
  | some rc, some m => decide (rc ≤ m) || decide (e.status = some "permanently_failed")
  | _, _ => true

/-- Claim C1 as stated: in every reachable store, every entry's
`retryCount` stays within `maxRetries` unless the entry has transitioned
to `permanently_failed`. -/
def claimBudgetInvariant : Prop :=
  ∀ s, ReachableStore s → ∀ p ∈ s, withinRetryBudget p.2 = true

/-- Claim C3's first conjunct as stated: an update carrying any supplied
(non-null) error increments the stored entry's `retryCount` by exactly
one. -/
def updateIncrementsOnSuppliedError : Prop :=
  ∀ (s : Store) (oid st e : String) (res : Option SendResult) (now : Int)
    (en : OutboxEntry) (rc : Nat) (s' : Store),
    lookupEntry s oid = some en → en.retryCount = some rc →
    updateOutboxEntryStatus s oid st (some e) res now = Except.ok s' →
    ∃ en', lookupEntry s' oid = some en' ∧ en'.retryCount = some (rc + 1)

/-- Claim C3's last conjunct as stated: an update addressed to a missing
entry fails (with `NotFound`) instead of performing any write. -/
def updateRejectsMissingEntry : Prop :=
  ∀ (s : Store) (oid st : String) (e : Option String) (res : Option SendResult)
    (now : Int), lookupEntry s oid = none →
    ∃ err, updateOutboxEntryStatus s oid st e res now = Except.error err

/-- Claim C4 as stated: the escalation processor, handed any entry with
`retryCount >= maxRetries` (the entry's own counters), marks it
`permanently_failed`, returns that outcome, and makes no provider call. -/
def claimEscalationCutoff : Prop :=
  ∀ (provider : Nat → Except JsError SendResult) (entry : OutboxEntry)
    (now : Int) (σ : SysState) (rc m : Nat),
    entry.retryCount = some rc → entry.maxRetries = some m → m ≤ rc →
    (dlqProcessMessage provider (DLQMessage.direct entry) now σ).1.dlqStatus
        = "permanently_failed" ∧
    (dlqProcessMessage provider (DLQMessage.direct entry) now σ).2.providerCalls
        = σ.providerCalls

/-- Claim C6's first conjunct as stated: the backoff engine invokes the
wrapped operation at most `maxAttempts` times, reading the function's
second parameter as `maxAttempts`. -/
def claimBackoffAttemptBound : Prop :=
  ∀ (op : Nat → Except JsError SendResult) (maxAttempts : Nat)
    (b M f : ℚ) (j : Bool) (rand : Nat → ℚ),
    (exponentialBackoff op maxAttempts b M f j rand).calls ≤ maxAttempts

/-- The recipient pattern the enqueue validation enforces for SMS
(`/^\+[1-9]\d{1,14}$/` in `models/notification.js`): `'+'`, a nonzero
digit, then one to fourteen digits. -/
def isE164 (p : List Char) : Bool :=
  match p with
  | '+' :: d :: rest =>
    d.isDigit && decide (¬ d = '0') && rest.all Char.isDigit
      && decide (1 ≤ rest.length) && decide (rest.length ≤ 14)
  | _ => false

/-- Claim C9's phone conjunct as stated: every E.164 recipient is masked
to its first three and last two digits with `'***'` between. -/
def claimPhoneMaskDigits : Prop :=
  ∀ p : List Char, isE164 p = true → maskSensitiveData p = specPhoneMask p

/-- JavaScript truthiness of the tagged payload of a DynamoDB attribute
wrapper: empty strings, `false` and `NULL: false` are falsy; array and
object payloads are always truthy. -/
def ddbPayloadFalsy : DDBValue → Bool
  | DDBValue.S s => decide (s = "")
  | DDBValue.N s => decide (s = "")
  | DDBValue.B s => decide (s = "")
  | DDBValue.BOOL b => ! b
  | DDBValue.NULL b => ! b
  | DDBValue.L _ => false
  | DDBValue.M _ => false
  | DDBValue.SS _ => false
  | DDBValue.NS _ => false
  | DDBValue.BS _ => false

/-- A non-retryable error: the validation failure thrown for a malformed
email recipient (`models/notification.js`); its name and message match no
entry of `retryableErrors`. -/
def validationError : JsError :=
  ⟨"ValidationError", "ValidationError",
   "Recipient must be a valid email address for email notifications"⟩

/-- A retryable provider error (SES throttling). -/
def throttlingError : JsError :=
  ⟨"ThrottlingException", "ThrottlingException", "Rate exceeded"⟩

/-- A provider outage error used to drive failing runs. -/
def outageError : JsError :=
  mkError "provider down"

/-- A provider oracle whose every send attempt fails with the outage. -/
def alwaysFailProvider : Nat → Except JsError SendResult :=
  fun _ => Except.error outageError

/-- A provider oracle whose every send attempt fails with throttling. -/
def throttleProvider : Nat → Except JsError SendResult :=
  fun _ => Except.error throttlingError

/-- A provider oracle whose every send attempt succeeds. -/
def alwaysOkProvider : Nat → Except JsError SendResult :=
  fun _ => Except.ok ⟨"m-1", "sent", "SES"⟩

/-- An always-failing wrapped operation for engine runs. -/
def alwaysFailOp : Nat → Except JsError SendResult :=
  fun _ => Except.error outageError

/-- A concrete outbox entry (the shape `storeInOutbox` produces) with the
given status, retry count, error and update time. -/
def cexEntry (st : String) (rc : Nat) (err : Option String) (t : Int) :
    OutboxEntry :=
  { id := "a", notificationId := some "n1", notifType := some "email",
    recipient := some "u@x.io", content := some "C",
    priority := some "normal", scheduledAt := none, status := some st,
    retryCount := some rc, maxRetries := some 3, errorMsg := err,
    result := none, updatedAt := some t }

/-- The one-entry store holding `cexEntry st rc err t`. -/
def cexStore (st : String) (rc : Nat) (err : Option String) (t : Int) : Store :=
  [("a", cexEntry st rc err t)]

/-- An entry whose `maxRetries` is the falsy number 0. -/
def zeroBudgetEntry : OutboxEntry :=
  { id := "d", notifType := some "email", recipient := some "u@x.io",
    content := some "C", status := some "failed", retryCount := some 0,
    maxRetries := some 0 }

/-! Helper lemmas about the store and retry-count monotonicity. -/

theorem lookupEntry_putEntry (s : Store) (oid : String) (e : OutboxEntry)
    (k : String) :
    lookupEntry (putEntry s oid e) k
      = if k = oid then some e else lookupEntry s k := by
  induction s with
  | nil =>
    by_cases h : k = oid
    · subst h
      simp [putEntry, lookupEntry]
    · simp [putEntry, lookupEntry, beq_iff_eq, h, Ne.symm h]
  | cons p rest ih =>
    by_cases hp : p.1 = oid
    · by_cases h : k = oid
      · subst h
        simp [putEntry, lookupEntry, hp, beq_iff_eq]
      · have hpk : ¬ p.1 = k := by
          rw [hp]
          exact Ne.symm h
        simp [putEntry, lookupEntry, hp, beq_iff_eq, h, Ne.symm h, hpk]
    · by_cases h : k = oid
      · subst h
        have hpk : ¬ p.1 = k := hp
        simp [putEntry, lookupEntry, hp, beq_iff_eq, hpk, ih]
      · simp [putEntry, lookupEntry, hp, beq_iff_eq, h, ih]

theorem storeLE_refl (s : Store) : StoreLE s s :=
  fun _ e rc hk hrc => ⟨e, rc, hk, hrc, le_rfl⟩

theorem storeLE_trans {a b c : Store} (h₁ : StoreLE a b) (h₂ : StoreLE b c) :
    StoreLE a c := by
  intro k e rc hk hrc
  obtain ⟨e', rc', hk', hrc', hle'⟩ := h₁ k e rc hk hrc
  obtain ⟨e'', rc'', hk'', hrc'', hle''⟩ := h₂ k e' rc' hk' hrc'
  exact ⟨e'', rc'', hk'', hrc'', le_trans hle' hle''⟩

theorem putEntry_fresh_storeLE {s : Store} {fid : String} (e : OutboxEntry)
    (hfresh : lookupEntry s fid = none) : StoreLE s (putEntry s fid e) := by
  intro k e₀ rc hk hrc
  have hne : k ≠ fid := by
    intro hkeq
    rw [hkeq, hfresh] at hk
    exact Option.noConfusion hk
  refine ⟨e₀, rc, ?_, hrc, le_rfl⟩
  rw [lookupEntry_putEntry, if_neg hne]
  exact hk

theorem updateOutboxEntryStatus_storeLE {s : Store} {oid st : String}
    {err : Option String} {res : Option SendResult} {now : Int} {s' : Store}
    (h : updateOutboxEntryStatus s oid st err res now = Except.ok s') :
    StoreLE s s' := by
  unfold updateOutboxEntryStatus at h
  split at h
  next e0 hl =>
    split at h
    next ht =>
      split at h
      next rc0 hrc0 =>
        have hs' := Except.ok.inj h
        subst hs'
        intro k e rc hk hrc
        by_cases hkeq : k = oid
        · subst hkeq
          rw [hl] at hk
          have he : e0 = e := Option.some.inj hk
          subst he
          have hrceq : rc = rc0 := by
            rw [hrc] at hrc0
            exact Option.some.inj hrc0
          simp only [lookupEntry_putEntry, if_pos rfl]
          exact ⟨_, rc0 + 1, rfl, rfl, by omega⟩
        · simp only [lookupEntry_putEntry, if_neg hkeq]
          exact ⟨e, rc, hk, hrc, le_rfl⟩
      next hrc0 => exact Except.noConfusion h
    next ht =>
      have hs' := Except.ok.inj h
      subst hs'
      intro k e rc hk hrc
      by_cases hkeq : k = oid
      · subst hkeq
        rw [hl] at hk
        have he : e0 = e := Option.some.inj hk
        subst he
        simp only [lookupEntry_putEntry, if_pos rfl]
        exact ⟨_, rc, rfl, hrc, le_rfl⟩
      · simp only [lookupEntry_putEntry, if_neg hkeq]
        exact ⟨e, rc, hk, hrc, le_rfl⟩
  next hl =>
    split at h
    next ht => exact Except.noConfusion h
    next ht =>
      have hs' := Except.ok.inj h
      subst hs'
      intro k e rc hk hrc
      have hne : k ≠ oid := by
        intro hkeq
        rw [hkeq, hl] at hk
        exact Option.noConfusion hk
      simp only [lookupEntry_putEntry, if_neg hne]
      exact ⟨e, rc, hk, hrc, le_rfl⟩

theorem processSendOutcome_storeLE (entry : OutboxEntry) (now : Int)
    (so : Except JsError SendResult) (σ₁ : SysState) :
    StoreLE σ₁.store (processSendOutcome entry now so σ₁).2.store := by
  unfold processSendOutcome
  cases so with
  | ok r =>
    dsimp only
    split
    next st hu => exact updateOutboxEntryStatus_storeLE hu
    next u hu => exact storeLE_refl _
  | error e =>
    dsimp only
    split
    next st hu => exact updateOutboxEntryStatus_storeLE hu
    next u hu => exact storeLE_refl _

theorem processOutboxEntry_storeLE (provider : Nat → Except JsError SendResult)
    (entry : OutboxEntry) (now : Int) (σ : SysState) :
    StoreLE σ.store (processOutboxEntry provider entry now σ).2.store := by
  unfold processOutboxEntry
  by_cases hs : scheduledInFuture entry now = true
  · rw [if_pos hs]
    exact storeLE_refl _
  · rw [if_neg hs]
    by_cases hty : entry.notifType = some "email" ∨ entry.notifType = some "sms"
    · rw [if_pos hty]
      exact processSendOutcome_storeLE entry now (provider σ.providerCalls)
        { σ with providerCalls := σ.providerCalls + 1 }
    · rw [if_neg hty]
      exact processSendOutcome_storeLE entry now
        (Except.error (mkError
          ("Unsupported notification type: " ++ (entry.notifType.getD "undefined"))))
        σ

theorem backoffRunSt_storeLE (op : SysState → Except JsError α × SysState)
    (hop : ∀ σ, StoreLE σ.store (op σ).2.store) (n : Nat) (σ : SysState) :
    StoreLE σ.store (backoffRunSt op n σ).2.store := by
  induction n generalizing σ with
  | zero => exact hop σ
  | succ m ih =>
    unfold backoffRunSt
    cases hstep : op σ with
    | mk r σ' =>
      cases r with
      | ok v =>
        have := hop σ
        rw [hstep] at this
        exact this
      | error e =>
        have h₁ := hop σ
        rw [hstep] at h₁
        exact storeLE_trans h₁ (ih σ')

theorem markAsPermanentlyFailed_storeLE (entry : OutboxEntry) (now : Int)
    (σ : SysState) :
    StoreLE σ.store (markAsPermanentlyFailed entry now σ).2.store := by
  unfold markAsPermanentlyFailed
  cases hu : updateOutboxEntryStatus σ.store entry.id "permanently_failed"
      (some "Exceeded maximum retry attempts") none now with
  | ok st => exact updateOutboxEntryStatus_storeLE hu
  | error u => exact storeLE_refl _

theorem retryNotification_storeLE (provider : Nat → Except JsError SendResult)
    (entry : OutboxEntry) (now : Int) (σ : SysState) :
    StoreLE σ.store (retryNotification provider entry now σ).2.store := by
  unfold retryNotification
  have hrun := backoffRunSt_storeLE (processOutboxEntry provider entry now)
    (processOutboxEntry_storeLE provider entry now) 2 σ
  split
  next v σ' hb =>
    rw [hb] at hrun
    exact hrun
  next e σ' hb =>
    rw [hb] at hrun
    split
    next st hu => exact storeLE_trans hrun (updateOutboxEntryStatus_storeLE hu)
    next u hu => exact hrun

theorem streamProcessRecord_storeLE (provider : Nat → Except JsError SendResult)
    (rec : StreamRecord) (now : Int) (σ : SysState) :
    StoreLE σ.store (streamProcessRecord provider rec now σ).2.store := by
  unfold streamProcessRecord
  split
  next hev => exact storeLE_refl _
  next hev =>
    split
    next => exact storeLE_refl _
    next entry heq =>
      split
      next hst => exact storeLE_refl _
      next hst =>
        split
        next hs => exact storeLE_refl _
        next hs =>
          have hrun := backoffRunSt_storeLE (processOutboxEntry provider entry now)
            (processOutboxEntry_storeLE provider entry now) 3 σ
          dsimp only
          exact hrun

theorem dlqProcessMessage_storeLE (provider : Nat → Except JsError SendResult)
    (msg : DLQMessage) (now : Int) (σ : SysState) :
    StoreLE σ.store (dlqProcessMessage provider msg now σ).2.store := by
  unfold dlqProcessMessage
  split
  next e hx => exact storeLE_refl _
  next entry hx =>
    split
    next hb =>
      have hmk := markAsPermanentlyFailed_storeLE entry now σ
      split
      next v σ' hm =>
        rw [hm] at hmk
        exact hmk
      next u σ' hm =>
        rw [hm] at hmk
        exact hmk
    next hb =>
      have hrt := retryNotification_storeLE provider entry now σ
      split
      next v σ' hm =>
        rw [hm] at hrt
        exact hrt
      next u σ' hm =>
        rw [hm] at hrt
        exact hrt

theorem requeueFailedNotification_storeLE {s : Store} {oid : String} {now : Int}
    {s' : Store} {rc : Option Nat}
    (h : requeueFailedNotification s oid now = Except.ok (s', rc)) :
    StoreLE s s' := by
  unfold requeueFailedNotification at h
  split at h
  next e hg => exact Except.noConfusion h
  next entry hg =>
    split at h
    next h₁ => exact Except.noConfusion h
    next h₁ =>
      split at h
      next h₂ => exact Except.noConfusion h
      next h₂ =>
        split at h
        next s'' hu =>
          have hpair := Except.ok.inj h
          have hstore : s'' = s' := congrArg Prod.fst hpair
          rw [← hstore]
          exact updateOutboxEntryStatus_storeLE hu
        next u hu => exact Except.noConfusion h

/-! Theorems settling the claims. -/

/-- Claim C1 (amended): across every pipeline operation on the outbox
store — enqueue, dispatch of a change-feed record, bare entry
processing, DLQ escalation, manual requeue, and direct status update —
no surviving entry's `retryCount` ever decreases; the code places no
upper bound tying `retryCount` to `maxRetries` outside the escalation
entry check, and a `failed` entry with `retryCount > maxRetries` is
reachable. -/
theorem step_retryCount_monotone {s s' : Store} (h : Step s s') : StoreLE s s' := by
  cases h with
  | enqueue fid nid nty rcp ct pr sch now s' hfresh heq =>
    rw [← heq]
    exact putEntry_fresh_storeLE _ hfresh
  | process provider entry now pc ms σ' r heq =>
    have hle := processOutboxEntry_storeLE provider entry now ⟨s, pc, ms⟩
    rw [heq] at hle
    exact hle
  | dispatch provider rec now pc ms σ' r heq =>
    have hle := streamProcessRecord_storeLE provider rec now ⟨s, pc, ms⟩
    rw [heq] at hle
    exact hle
  | escalate provider msg now pc ms σ' out heq =>
    have hle := dlqProcessMessage_storeLE provider msg now ⟨s, pc, ms⟩
    rw [heq] at hle
    exact hle
  | requeue oid now s' rc heq => exact requeueFailedNotification_storeLE heq
  | updateStatus oid st error result now s' heq =>
    exact updateOutboxEntryStatus_storeLE heq

/-- Claim C1 witness: monotonicity applied at a concrete dispatch of one
insert record whose four in-process attempts all fail. -/
theorem step_retryCount_monotone_witness :
    StoreLE (cexStore "pending" 0 none 0)
      (cexStore "failed" 4 (some "provider down") 0) :=
  step_retryCount_monotone
    (Step.dispatch alwaysFailProvider
      ⟨"INSERT", some (cexEntry "pending" 0 none 0)⟩ 0 0 []
      ⟨cexStore "failed" 4 (some "provider down") 0, 4,
       ["notifications.failed", "notifications.failed",
        "notifications.failed", "notifications.failed"]⟩
      (RecordOutcome.dispatched (Except.error outageError)) rfl)

/-- Claim C1 counterexample: enqueueing one entry (`maxRetries = 3`) and
delivering its insert event to the dispatcher with a persistently failing
provider reaches a store whose entry has `retryCount = 4 > 3` while the
status is `failed`, not `permanently_failed` — each of the four
in-process attempts of the dispatcher's retry wrapper increments the
persistent `retryCount`. -/
theorem budget_invariant_counterexample : ¬ claimBudgetInvariant := by
  intro h
  have hreach : ReachableStore (cexStore "failed" 4 (some "provider down") 0) := by
    have r0 : ReachableStore ([] : Store) := ReachableStore.init
    have r1 := r0.step (Step.enqueue [] "a" "n1" "email" "u@x.io" "C" "normal"
      none 0 (cexStore "pending" 0 none 0) rfl rfl)
    exact r1.step (Step.dispatch alwaysFailProvider
      ⟨"INSERT", some (cexEntry "pending" 0 none 0)⟩ 0 0 []
      ⟨cexStore "failed" 4 (some "provider down") 0, 4,
       ["notifications.failed", "notifications.failed",
        "notifications.failed", "notifications.failed"]⟩
      (RecordOutcome.dispatched (Except.error outageError)) rfl)
  have hmem : ("a", cexEntry "failed" 4 (some "provider down") 0)
      ∈ cexStore "failed" 4 (some "provider down") 0 := List.Mem.head _
  have hbad := h _ hreach _ hmem
  exact absurd hbad (by decide)

/-- Claim C2 (code bug, evaluated at the failing input): the
classification marks a validation error non-retryable, yet the retry
engine, asked to run an operation that always throws exactly that error
with the default `maxRetries = 3`, invokes it four times and only then
fails with the error — the `wrappedOperation` check inside `withRetry`
rethrows on both branches, so `exponentialBackoff` retries every error. -/
theorem withRetry_retries_nonretryable :
    isRetryableError validationError = false ∧
    (withRetry (fun _ => (Except.error validationError : Except JsError SendResult))
        3 1000 30000 2 true isRetryableError (fun _ => 0)).calls = 4 ∧
    (withRetry (fun _ => (Except.error validationError : Except JsError SendResult))
        3 1000 30000 2 true isRetryableError (fun _ => 0)).result
      = Except.error validationError :=
  ⟨by decide, rfl, rfl⟩

/-- Claim C3 (amended): `updateOutboxEntryStatus` increments the stored
entry's `retryCount` by exactly one when a non-empty error string is
supplied and leaves it unchanged when the error is null; in both cases
it writes the new status and refreshes `updatedAt`. For an id with no
stored entry there is no `NotFound` check: with a null error the update
is a DynamoDB upsert creating a fresh item carrying only the written
attributes, and with a non-empty error it fails with the
`ValidationException` raised by incrementing the missing `retryCount`
attribute. -/
theorem updateOutboxEntryStatus_spec (s : Store) (oid st : String)
    (res : Option SendResult) (now : Int) :
    (∀ (en : OutboxEntry) (rc : Nat) (e : String),
      lookupEntry s oid = some en → en.retryCount = some rc → ¬ e = "" →
      ∃ s', updateOutboxEntryStatus s oid st (some e) res now = Except.ok s' ∧
        ∃ en', lookupEntry s' oid = some en' ∧ en'.retryCount = some (rc + 1)
          ∧ en'.status = some st ∧ en'.updatedAt = some now) ∧
    (∀ (en : OutboxEntry), lookupEntry s oid = some en →
      ∃ s', updateOutboxEntryStatus s oid st none res now = Except.ok s' ∧
        ∃ en', lookupEntry s' oid = some en' ∧ en'.retryCount = en.retryCount
          ∧ en'.status = some st ∧ en'.updatedAt = some now) ∧
    (∀ (e : String), lookupEntry s oid = none → ¬ e = "" →
      updateOutboxEntryStatus s oid st (some e) res now
        = Except.error validationException) ∧
    (lookupEntry s oid = none →
      updateOutboxEntryStatus s oid st none res now
        = Except.ok (putEntry s oid
            { id := oid, status := some st, updatedAt := some now,
              result := res })) := by
  refine ⟨?_, ?_, ?_, ?_⟩
  · intro en rc e hl hrc he
    have ht : jsTruthyStr (some e) = true := by
      simp [jsTruthyStr, he]
    refine ⟨putEntry s oid
      { en with status := some st, updatedAt := some now, errorMsg := some e,
                retryCount := some (rc + 1),
                result := if res.isSome then res else en.result }, ?_, ?_⟩
    · simp only [updateOutboxEntryStatus, hl, hrc]
      rw [if_pos ht]
    · refine ⟨{ en with status := some st, updatedAt := some now,
                        errorMsg := some e, retryCount := some (rc + 1),
                        result := if res.isSome then res else en.result },
        ?_, rfl, rfl, rfl⟩
      rw [lookupEntry_putEntry, if_pos rfl]
  · intro en hl
    have ht : ¬ jsTruthyStr none = true := by decide
    refine ⟨putEntry s oid
      { en with status := some st, updatedAt := some now,
                result := if res.isSome then res else en.result }, ?_, ?_⟩
    · simp only [updateOutboxEntryStatus, hl]
      rw [if_neg ht]
    · refine ⟨{ en with status := some st, updatedAt := some now,
                        result := if res.isSome then res else en.result },
        ?_, rfl, rfl, rfl⟩
      rw [lookupEntry_putEntry, if_pos rfl]
  · intro e hl he
    have ht : jsTruthyStr (some e) = true := by
      simp [jsTruthyStr, he]
    simp only [updateOutboxEntryStatus, hl]
    rw [if_pos ht]
  · intro hl
    have ht : ¬ jsTruthyStr none = true := by decide
    simp only [updateOutboxEntryStatus, hl]
    rw [if_neg ht]

/-- Claim C3 witness: the amended update contract at a concrete store —
a supplied non-empty error increments the stored retry count from 0 to
1, and the same update addressed to an empty store fails with the
`ValidationException` (not `NotFound`). -/
theorem updateOutboxEntryStatus_spec_witness :
    (∃ s', updateOutboxEntryStatus (cexStore "failed" 0 none 0) "a" "failed"
        (some "boom") none 5 = Except.ok s' ∧
      ∃ en', lookupEntry s' "a" = some en' ∧ en'.retryCount = some (0 + 1)
        ∧ en'.status = some "failed" ∧ en'.updatedAt = some 5) ∧
    updateOutboxEntryStatus [] "a" "failed" (some "boom") none 5
      = Except.error validationException :=
  ⟨(updateOutboxEntryStatus_spec (cexStore "failed" 0 none 0) "a" "failed"
      none 5).1 (cexEntry "failed" 0 none 0) 0 "boom" rfl rfl (by decide),
   (updateOutboxEntryStatus_spec [] "a" "failed" none 5).2.2.1 "boom" rfl
     (by decide)⟩

/-- Claim C3 counterexample: an update carrying the supplied (non-null)
empty error string leaves `retryCount` unchanged rather than
incrementing it, and an update addressed to a missing id succeeds with an
upsert instead of failing with `NotFound`. -/
theorem update_status_counterexample :
    ¬ updateIncrementsOnSuppliedError ∧ ¬ updateRejectsMissingEntry := by
  constructor
  · intro h
    obtain ⟨en', h1, h2⟩ := h (cexStore "failed" 0 none 0) "a" "failed" "" none 0
      (cexEntry "failed" 0 none 0) 0 (cexStore "failed" 0 none 0) rfl rfl rfl
    have h1' : (some (cexEntry "failed" 0 none 0) : Option OutboxEntry)
        = some en' := h1
    have hen : en' = cexEntry "failed" 0 none 0 := (Option.some.inj h1').symm
    rw [hen] at h2
    exact absurd h2 (by decide)
  · intro h
    obtain ⟨err, hx⟩ := h [] "missing" "failed" none none 0 rfl
    have hx' : (Except.ok [("missing",
      ({ id := "missing", status := some "failed", updatedAt := some 0,
         result := none } : OutboxEntry))] : Except JsError Store)
        = Except.error err := hx
    exact Except.noConfusion hx'

/-- Bound on the number of invocations a backoff loop makes starting at
invocation index `attempt` with `remaining` further attempts allowed. -/
theorem backoffRun_calls_le (op : Nat → Except JsError α) (b M f : ℚ)
    (j : Bool) (rand : Nat → ℚ) (r a : Nat) :
    (backoffRun op b M f j rand a r).calls ≤ a + r + 1 := by
  induction r generalizing a with
  | zero => simp [backoffRun]
  | succ m ih =>
    unfold backoffRun
    cases op a with
    | ok v =>
      dsimp only
      omega
    | error e =>
      dsimp only
      have := ih (a + 1)
      omega

/-- A backoff loop whose every invocation fails ends with the outcome of
its final invocation. -/
theorem backoffRun_allfail (op : Nat → Except JsError α) (b M f : ℚ)
    (j : Bool) (rand : Nat → ℚ) (h : ∀ k, ∃ e, op k = Except.error e)
    (r a : Nat) :
    (backoffRun op b M f j rand a r).result = op (a + r) := by
  induction r generalizing a with
  | zero => simp [backoffRun]
  | succ m ih =>
    unfold backoffRun
    obtain ⟨e, he⟩ := h a
    rw [he]
    dsimp only
    rw [ih (a + 1)]
    congr 1
    omega

/-- Claim C6 (amended): `exponentialBackoff` invokes the wrapped
operation at most `maxRetries + 1` times — one initial attempt plus up
to `maxRetries` retries, the second parameter counting retries — and
when every attempt fails it fails with the last observed error (the
outcome of the final invocation). -/
theorem exponentialBackoff_spec (op : Nat → Except JsError α)
    (maxRetries : Nat) (b M f : ℚ) (j : Bool) (rand : Nat → ℚ) :
    (exponentialBackoff op maxRetries b M f j rand).calls ≤ maxRetries + 1 ∧
    ((∀ k, ∃ e, op k = Except.error e) →
      (exponentialBackoff op maxRetries b M f j rand).result = op maxRetries) := by
  constructor
  · have := backoffRun_calls_le op b M f j rand maxRetries 0
    simpa [exponentialBackoff] using this
  · intro h
    have := backoffRun_allfail op b M f j rand h maxRetries 0
    simpa [exponentialBackoff] using this

/-- Claim C6 witness: the amended engine contract at the DLQ parameters
(`maxRetries = 2`): at most three invocations, and an always-failing
operation yields the final attempt's error. -/
theorem exponentialBackoff_spec_witness :
    (exponentialBackoff alwaysFailOp 2 2000 10000 2 true (fun _ => 0)).calls ≤ 3 ∧
    (exponentialBackoff alwaysFailOp 2 2000 10000 2 true (fun _ => 0)).result
      = alwaysFailOp 2 :=
  ⟨(exponentialBackoff_spec alwaysFailOp 2 2000 10000 2 true (fun _ => 0)).1,
   (exponentialBackoff_spec alwaysFailOp 2 2000 10000 2 true (fun _ => 0)).2
     (fun _ => ⟨outageError, rfl⟩)⟩

/-- Claim C6 counterexample: with its second parameter set to 1, a run of
`exponentialBackoff` over an always-failing operation invokes it twice —
more than the claimed bound of `maxAttempts` invocations. -/
theorem backoff_attempt_bound_counterexample : ¬ claimBackoffAttemptBound := by
  intro h
  have hb := h alwaysFailOp 1 1000 30000 2 true (fun _ => 0)
  have hc : (exponentialBackoff alwaysFailOp 1 1000 30000 2 true
      (fun _ => 0)).calls = 2 := rfl
  rw [hc] at hb
  omega

/-- The escalation status write and metric never touch the provider call
counter, and on a successful write they extend the metrics by exactly
the permanent-failure counter. -/
theorem markAsPermanentlyFailed_frame (entry : OutboxEntry) (now : Int)
    (σ : SysState) :
    (markAsPermanentlyFailed entry now σ).2.providerCalls = σ.providerCalls := by
  unfold markAsPermanentlyFailed
  split
  next st hu => rfl
  next u hu => rfl

/-- Claim C4 (amended): when the escalation processor receives an entry
whose `retryCount` is at least its retry budget (`maxRetries`, read as 3
when the field is absent or the falsy 0), it makes no provider send
attempt; and provided the entry's row is present in the store with a
`retryCount` attribute — so that the permanent-failure status write
succeeds — it marks the row `permanently_failed`, records the
`notifications.permanently_failed` metric, and returns the outcome
`permanently_failed`. -/
theorem dlq_budget_exceeded_spec (provider : Nat → Except JsError SendResult)
    (entry : OutboxEntry) (now : Int) (σ : SysState)
    (hb : dlqBudgetExceeded entry = true) :
    (dlqProcessMessage provider (DLQMessage.direct entry) now σ).2.providerCalls
        = σ.providerCalls ∧
    (∀ (en : OutboxEntry) (rc0 : Nat),
      lookupEntry σ.store entry.id = some en → en.retryCount = some rc0 →
      (dlqProcessMessage provider (DLQMessage.direct entry) now σ).1
          = ⟨"permanently_failed", none⟩ ∧
      (dlqProcessMessage provider (DLQMessage.direct entry) now σ).2.metrics
          = σ.metrics ++ ["notifications.permanently_failed"] ∧
      ∃ en', lookupEntry
          (dlqProcessMessage provider (DLQMessage.direct entry) now σ).2.store
          entry.id = some en' ∧ en'.status = some "permanently_failed"
        ∧ en'.retryCount = some (rc0 + 1)) := by
  constructor
  · unfold dlqProcessMessage
    dsimp only [dlqExtract]
    rw [if_pos hb]
    have hframe := markAsPermanentlyFailed_frame entry now σ
    split
    next v σ' hm =>
      rw [hm] at hframe
      exact hframe
    next u σ' hm =>
      rw [hm] at hframe
      exact hframe
  · intro en rc0 hstore hrc0
    have ht : jsTruthyStr (some "Exceeded maximum retry attempts") = true := by
      decide
    have hupd : updateOutboxEntryStatus σ.store entry.id "permanently_failed"
        (some "Exceeded maximum retry attempts") none now
        = Except.ok (putEntry σ.store entry.id
            { en with status := some "permanently_failed",
                      updatedAt := some now,
                      errorMsg := some "Exceeded maximum retry attempts",
                      retryCount := some (rc0 + 1),
                      result := if (none : Option SendResult).isSome
                        then none else en.result }) := by
      simp only [updateOutboxEntryStatus, hstore, hrc0]
      rw [if_pos ht]
    have hred : dlqProcessMessage provider (DLQMessage.direct entry) now σ
        = (⟨"permanently_failed", none⟩,
           { σ with
             store := putEntry σ.store entry.id
               { en with status := some "permanently_failed",
                         updatedAt := some now,
                         errorMsg := some "Exceeded maximum retry attempts",
                         retryCount := some (rc0 + 1),
                         result := if (none : Option SendResult).isSome
                           then none else en.result },
             metrics := σ.metrics ++ ["notifications.permanently_failed"] }) := by
      unfold dlqProcessMessage
      dsimp only [dlqExtract]
      rw [if_pos hb]
      unfold markAsPermanentlyFailed
      rw [hupd]
    rw [hred]
    exact ⟨rfl, rfl,
      { en with status := some "permanently_failed", updatedAt := some now,
                errorMsg := some "Exceeded maximum retry attempts",
                retryCount := some (rc0 + 1),
                result := if (none : Option SendResult).isSome
                  then none else en.result },
      by rw [lookupEntry_putEntry, if_pos rfl], rfl, rfl⟩

/-- Claim C4 witness: escalation of Scenario 3's entry —
`retryCount = maxRetries = 3`, status `failed`, present in the store —
is marked `permanently_failed` with the metric recorded and no provider
call. -/
theorem dlq_budget_exceeded_spec_witness :
    (dlqProcessMessage throttleProvider
        (DLQMessage.direct (cexEntry "failed" 3 none 9)) 9
        ⟨cexStore "failed" 3 none 9, 0, []⟩).2.providerCalls = 0 ∧
    (dlqProcessMessage throttleProvider
        (DLQMessage.direct (cexEntry "failed" 3 none 9)) 9
        ⟨cexStore "failed" 3 none 9, 0, []⟩).1
      = ⟨"permanently_failed", none⟩ ∧
    (dlqProcessMessage throttleProvider
        (DLQMessage.direct (cexEntry "failed" 3 none 9)) 9
        ⟨cexStore "failed" 3 none 9, 0, []⟩).2.metrics
      = [] ++ ["notifications.permanently_failed"] :=
  ⟨(dlq_budget_exceeded_spec throttleProvider (cexEntry "failed" 3 none 9) 9
      ⟨cexStore "failed" 3 none 9, 0, []⟩ (by decide)).1,
   ((dlq_budget_exceeded_spec throttleProvider (cexEntry "failed" 3 none 9) 9
      ⟨cexStore "failed" 3 none 9, 0, []⟩ (by decide)).2
      (cexEntry "failed" 3 none 9) 3 rfl rfl).1,
   ((dlq_budget_exceeded_spec throttleProvider (cexEntry "failed" 3 none 9) 9
      ⟨cexStore "failed" 3 none 9, 0, []⟩ (by decide)).2
      (cexEntry "failed" 3 none 9) 3 rfl rfl).2.1⟩

/-- Claim C4 counterexample: an entry whose own counters satisfy
`retryCount >= maxRetries` (both 0) is not marked `permanently_failed`:
because `maxRetries || 3` treats the falsy 0 as absent, the processor
proceeds to a delivery retry, making provider send attempts and
returning a non-`permanently_failed` outcome. -/
theorem dlq_budget_counterexample : ¬ claimEscalationCutoff := by
  intro h
  have hbad := h throttleProvider zeroBudgetEntry 0 ⟨[], 0, []⟩ 0 0 rfl rfl
    (le_refl 0)
  have h1 : (dlqProcessMessage throttleProvider
      (DLQMessage.direct zeroBudgetEntry) 0 ⟨[], 0, []⟩).1.dlqStatus
      = "failed" := rfl
  rw [h1] at hbad
  exact absurd hbad.1 (by decide)

/-- Claim C5: the dispatcher initiates a provider delivery attempt only
for an `INSERT` record with a decoded image whose status is `pending`
and whose `scheduledAt` is absent or not in the future; and any record
carrying an entry scheduled strictly in the future is skipped outright —
the state (store, provider calls, metrics) is returned unchanged, with
no error and no transition out of `pending`. -/
theorem streamProcessRecord_spec (provider : Nat → Except JsError SendResult)
    (rec : StreamRecord) (now : Int) (σ : SysState) :
    (σ.providerCalls < (streamProcessRecord provider rec now σ).2.providerCalls →
      rec.eventName = "INSERT" ∧
      ∃ entry, rec.newImage = some entry ∧ entry.status = some "pending" ∧
        (entry.scheduledAt = none ∨ ∃ t, entry.scheduledAt = some t ∧ t ≤ now)) ∧
    (∀ (entry : OutboxEntry) (t : Int), rec.newImage = some entry →
      entry.scheduledAt = some t → now < t →
      streamProcessRecord provider rec now σ = (RecordOutcome.skipped, σ)) := by
  constructor
  · intro hcalls
    unfold streamProcessRecord at hcalls
    split at hcalls
    next hev => exact absurd hcalls (lt_irrefl _)
    next hev =>
      have hev' : rec.eventName = "INSERT" := not_not.mp hev
      split at hcalls
      next hni => exact absurd hcalls (lt_irrefl _)
      next entry hni =>
        split at hcalls
        next hst => exact absurd hcalls (lt_irrefl _)
        next hst =>
          have hst' : entry.status = some "pending" := not_not.mp hst
          split at hcalls
          next hsch => exact absurd hcalls (lt_irrefl _)
          next hsch =>
            refine ⟨hev', entry, hni, hst', ?_⟩
            cases hs : entry.scheduledAt with
            | none => exact Or.inl rfl
            | some t =>
              refine Or.inr ⟨t, rfl, ?_⟩
              rw [scheduledInFuture, hs] at hsch
              simpa using hsch
  · intro entry t hni hsch hlt
    unfold streamProcessRecord
    by_cases hev : rec.eventName = "INSERT"
    · rw [if_neg (not_not_intro hev)]
      simp only [hni]
      by_cases hst : entry.status = some "pending"
      · rw [if_neg (not_not_intro hst)]
        have hf : scheduledInFuture entry now = true := by
          simp [scheduledInFuture, hsch, hlt]
        rw [if_pos hf]
      · rw [if_pos hst]
    · rw [if_pos hev]

/-- Claim C5 witness: a ready pending insert does reach the provider
(one call made), and the same entry scheduled in the future is skipped
with the state unchanged. -/
theorem streamProcessRecord_spec_witness :
    (((⟨"INSERT", some (cexEntry "pending" 0 none 0)⟩ : StreamRecord).eventName
        = "INSERT") ∧
      ∃ entry, (⟨"INSERT", some (cexEntry "pending" 0 none 0)⟩ :
          StreamRecord).newImage = some entry ∧
        entry.status = some "pending" ∧
        (entry.scheduledAt = none ∨ ∃ t, entry.scheduledAt = some t ∧ t ≤ 7)) ∧
    streamProcessRecord alwaysOkProvider
      ⟨"INSERT", some { cexEntry "pending" 0 none 0 with scheduledAt := some 100 }⟩
      7 ⟨cexStore "pending" 0 none 0, 0, []⟩
      = (RecordOutcome.skipped, ⟨cexStore "pending" 0 none 0, 0, []⟩) :=
  ⟨(streamProcessRecord_spec alwaysOkProvider
      ⟨"INSERT", some (cexEntry "pending" 0 none 0)⟩ 7
      ⟨cexStore "pending" 0 none 0, 0, []⟩).1 (by decide),
   (streamProcessRecord_spec alwaysOkProvider
      ⟨"INSERT", some { cexEntry "pending" 0 none 0 with scheduledAt := some 100 }⟩
      7 ⟨cexStore "pending" 0 none 0, 0, []⟩).2
     { cexEntry "pending" 0 none 0 with scheduledAt := some 100 } 100 rfl rfl
     (by decide)⟩

/-- Claim C7: the pre-jitter delay after (0-indexed) failed attempt `n`
is `min(baseDelay * factor^n, maxDelay)`; along attempts it is
non-decreasing (for the source's parameters, `baseDelay ≥ 0` and
`factor ≥ 1`) and capped at `maxDelay`; with jitter enabled the slept
delay is the pre-jitter delay multiplied by `0.5 + r * 0.5`, a factor
lying in `[0.5, 1.0]` for the `Math.random()` draw `r ∈ [0, 1)`. -/
theorem backoffDelay_spec (b M f : ℚ) (rand : Nat → ℚ) (n : Nat)
    (hb : 0 ≤ b) (hf : 1 ≤ f) (hr0 : 0 ≤ rand n) (hr1 : rand n < 1) :
    backoffDelay b M f n = min (b * f ^ n) M
    ∧ backoffDelay b M f n ≤ backoffDelay b M f (n + 1)
    ∧ backoffDelay b M f n ≤ M
    ∧ appliedDelay b M f true rand n
        = backoffDelay b M f n * (1/2 + rand n * (1/2))
    ∧ 1/2 ≤ 1/2 + rand n * (1/2) ∧ 1/2 + rand n * (1/2) ≤ 1 := by
  refine ⟨rfl, ?_, min_le_right _ _, rfl, ?_, ?_⟩
  · have hpow : b * f ^ n ≤ b * f ^ (n + 1) :=
      mul_le_mul_of_nonneg_left (pow_le_pow_right₀ hf (Nat.le_succ n)) hb
    exact min_le_min hpow le_rfl
  · linarith
  · linarith

/-- Claim C7 witness: the delay contract at the escalation processor's
parameters (base 2000ms, cap 10000ms, factor 2) for attempt 1 and a
concrete random draw of 1/3. -/
theorem backoffDelay_spec_witness :
    backoffDelay 2000 10000 2 1 = min (2000 * 2 ^ 1) 10000
    ∧ backoffDelay 2000 10000 2 1 ≤ backoffDelay 2000 10000 2 (1 + 1)
    ∧ backoffDelay 2000 10000 2 1 ≤ 10000
    ∧ appliedDelay 2000 10000 2 true (fun _ => 1/3) 1
        = backoffDelay 2000 10000 2 1 * (1/2 + 1/3 * (1/2))
    ∧ (1/2 : ℚ) ≤ 1/2 + 1/3 * (1/2) ∧ (1/2 : ℚ) + 1/3 * (1/2) ≤ 1 :=
  backoffDelay_spec 2000 10000 2 (fun _ => 1/3) 1 (by norm_num) (by norm_num)
    (by norm_num) (by norm_num)

/-- Claim C8: `requeueFailedNotification` fails with `NotFound` for a
missing entry; for a stored entry it succeeds exactly when the status is
`failed` and `retryCount < maxRetries`, failing with the corresponding
error (and writing nothing) otherwise; on success the entry's status is
reset to `pending` and `updatedAt` refreshed while every other field —
`retryCount`, `maxRetries`, the rendered content, recipient, type,
priority, schedule, error and result — and every other entry are
unchanged. -/
theorem requeueFailedNotification_spec (s : Store) (oid : String) (now : Int) :
    (lookupEntry s oid = none →
      requeueFailedNotification s oid now
        = Except.error (mkError "Outbox entry not found")) ∧
    (∀ (en : OutboxEntry) (rc m : Nat), lookupEntry s oid = some en →
      en.retryCount = some rc → en.maxRetries = some m →
      (¬ en.status = some "failed" →
        requeueFailedNotification s oid now
          = Except.error (mkError "Only failed notifications can be requeued")) ∧
      (en.status = some "failed" → m ≤ rc →
        requeueFailedNotification s oid now
          = Except.error (mkError "Maximum retry attempts exceeded")) ∧
      (en.status = some "failed" → rc < m →
        requeueFailedNotification s oid now
          = Except.ok (putEntry s oid
              { en with status := some "pending", updatedAt := some now },
              some rc) ∧
        lookupEntry (putEntry s oid
            { en with status := some "pending", updatedAt := some now }) oid
          = some { en with status := some "pending", updatedAt := some now } ∧
        (∀ k, ¬ k = oid →
          lookupEntry (putEntry s oid
            { en with status := some "pending", updatedAt := some now }) k
            = lookupEntry s k))) := by
  constructor
  · intro hl
    unfold requeueFailedNotification
    simp only [getOutboxEntry, hl]
  · intro en rc m hl hrc hm
    refine ⟨?_, ?_, ?_⟩
    · intro hstat
      unfold requeueFailedNotification
      simp only [getOutboxEntry, hl]
      rw [if_pos hstat]
    · intro hstat hle
      unfold requeueFailedNotification
      simp only [getOutboxEntry, hl]
      rw [if_neg (not_not_intro hstat)]
      have hguard : (match en.retryCount, en.maxRetries with
          | some rc, some m => decide (m ≤ rc)
          | _, _ => false) = true := by
        simp only [hrc, hm]
        simpa using hle
      rw [if_pos hguard]
    · intro hstat hlt
      have ht : ¬ jsTruthyStr none = true := by decide
      have hupd : updateOutboxEntryStatus s oid "pending" none none now
          = Except.ok (putEntry s oid
              { en with status := some "pending", updatedAt := some now }) := by
        simp only [updateOutboxEntryStatus, hl]
        rw [if_neg ht]
        rfl
      have hguard : ¬ (match en.retryCount, en.maxRetries with
          | some rc, some m => decide (m ≤ rc)
          | _, _ => false) = true := by
        simp only [hrc, hm]
        simpa using hlt
      have hrun : requeueFailedNotification s oid now
          = Except.ok (putEntry s oid
              { en with status := some "pending", updatedAt := some now },
              some rc) := by
        unfold requeueFailedNotification
        simp only [getOutboxEntry, hl]
        rw [if_neg (not_not_intro hstat), if_neg hguard, hupd, hrc]
      refine ⟨hrun, ?_, ?_⟩
      · rw [lookupEntry_putEntry, if_pos rfl]
      · intro k hk
        rw [lookupEntry_putEntry, if_neg hk]

/-- Claim C8 witness: the requeue contract at Scenario 5's entry —
status `failed`, `retryCount = 1 < maxRetries = 3` — the entry returns
to `pending` with only `status` and `updatedAt` touched. -/
theorem requeueFailedNotification_spec_witness :
    requeueFailedNotification (cexStore "failed" 1 (some "boom") 2) "a" 6
      = Except.ok (putEntry (cexStore "failed" 1 (some "boom") 2) "a"
          { cexEntry "failed" 1 (some "boom") 2 with
              status := some "pending", updatedAt := some 6 }, some 1) ∧
    lookupEntry (putEntry (cexStore "failed" 1 (some "boom") 2) "a"
        { cexEntry "failed" 1 (some "boom") 2 with
            status := some "pending", updatedAt := some 6 }) "a"
      = some { cexEntry "failed" 1 (some "boom") 2 with
            status := some "pending", updatedAt := some 6 } :=
  ⟨(((requeueFailedNotification_spec (cexStore "failed" 1 (some "boom") 2)
        "a" 6).2 (cexEntry "failed" 1 (some "boom") 2) 1 3 rfl rfl rfl).2.2
      rfl (by decide)).1,
   (((requeueFailedNotification_spec (cexStore "failed" 1 (some "boom") 2)
        "a" 6).2 (cexEntry "failed" 1 (some "boom") 2) 1 3 rfl rfl rfl).2.2
      rfl (by decide)).2.1⟩

/-- A singleton needle is contained in a character list exactly when its
character occurs in the list. -/
theorem charsContain_singleton (l : List Char) (c : Char) :
    charsContain l [c] = true ↔ c ∈ l := by
  induction l with
  | nil => simp [charsContain]
  | cons a t ih =>
    simp only [charsContain, charsStartWith, Bool.or_eq_true, Bool.and_eq_true,
      beq_iff_eq, ih, List.mem_cons]
    constructor
    · rintro (⟨h1, _⟩ | h2)
      · exact Or.inl h1.symm
      · exact Or.inr h2
    · rintro (h1 | h2)
      · exact Or.inl ⟨h1.symm, trivial⟩
      · exact Or.inr h2

/-- Splitting a list free of the separator yields the one-group list. -/
theorem splitOnChar_not_mem {sep : Char} {l : List Char} (h : ¬ sep ∈ l) :
    splitOnChar sep l = [l] := by
  induction l with
  | nil => rfl
  | cons a t ih =>
    have ha : ¬ a = sep := fun hc => h (hc ▸ List.mem_cons_self a t)
    have ht : ¬ sep ∈ t := fun hc => h (List.mem_cons_of_mem a hc)
    simp only [splitOnChar, beq_iff_eq, ha, if_false, ih ht]

/-- Splitting at the first separator occurrence: the part before it
becomes the first group. -/
theorem splitOnChar_append {sep : Char} {l : List Char} (h : ¬ sep ∈ l)
    (r : List Char) :
    splitOnChar sep (l ++ sep :: r) = l :: splitOnChar sep r := by
  induction l with
  | nil =>
    simp [splitOnChar]
  | cons a t ih =>
    have ha : ¬ a = sep := fun hc => h (hc ▸ List.mem_cons_self a t)
    have ht : ¬ sep ∈ t := fun hc => h (List.mem_cons_of_mem a hc)
    simp only [List.cons_append, splitOnChar, beq_iff_eq, ha, if_false]
    rw [show t.append (sep :: r) = t ++ sep :: r from rfl, ih ht]

/-- Claim C9 (amended): `maskSensitiveData` masks an email
`local ++ '@' ++ domain` (one `'@'`) as the local part truncated to two
characters, then `'***@'`, then the full domain; and masks a recipient
beginning with `'+'` (as every E.164 number does) and containing no
`'@'` as its first three characters — the `'+'` and the first two
digits — then `'***'`, then its last two characters. -/
theorem maskSensitiveData_spec :
    (∀ localPart domain : List Char, ¬ '@' ∈ localPart → ¬ '@' ∈ domain →
      maskSensitiveData (localPart ++ '@' :: domain)
        = localPart.take 2 ++ "***@".data ++ domain) ∧
    (∀ p t : List Char, p = '+' :: t → ¬ '@' ∈ p →
      maskSensitiveData p
        = p.take 3 ++ "***".data ++ p.drop (p.length - 2)) := by
  constructor
  · intro localPart domain hl hd
    have hne : ¬ (localPart ++ '@' :: domain) = ([] : List Char) := by
      cases localPart <;> simp
    have hmem : '@' ∈ localPart ++ '@' :: domain :=
      List.mem_append.mpr (Or.inr (List.mem_cons_self _ _))
    unfold maskSensitiveData
    rw [if_neg hne, if_pos ((charsContain_singleton _ _).mpr hmem)]
    rw [splitOnChar_append hl, splitOnChar_not_mem hd]
    rfl
  · intro p t hp hno
    subst hp
    have hnc : ¬ charsContain ('+' :: t) [('@' : Char)] = true :=
      fun hc => hno ((charsContain_singleton _ _).mp hc)
    unfold maskSensitiveData
    rw [if_neg (by simp), if_neg hnc]
    rfl

/-- Claim C9 witness: the amended mask contract at a concrete email and
a concrete E.164 number — `jo***@example.org` and `+15***67`. -/
theorem maskSensitiveData_spec_witness :
    maskSensitiveData ("john.doe".data ++ '@' :: "example.org".data)
      = ("john.doe".data).take 2 ++ "***@".data ++ "example.org".data ∧
    maskSensitiveData ("+15551234567".data)
      = ("+15551234567".data).take 3 ++ "***".data
        ++ ("+15551234567".data).drop (("+15551234567".data).length - 2) :=
  ⟨maskSensitiveData_spec.1 "john.doe".data "example.org".data (by decide)
      (by decide),
   maskSensitiveData_spec.2 "+15551234567".data "15551234567".data (by decide)
      (by decide)⟩

/-- Claim C9 counterexample: the E.164 number `+15551234567` is masked by
the code as `+15***67` — its first three characters, keeping the `'+'`
and only two digits — not as its first three digits `155` followed by
`'***'` and the last two digits, as the claim words it. -/
theorem phone_mask_digits_counterexample : ¬ claimPhoneMaskDigits := by
  intro h
  have hbad := h ("+15551234567".data) (by decide)
  exact absurd hbad (by decide)

/-- Claim C10: a DynamoDB attribute wrapper whose tagged payload is
falsy — an empty string under `S`, `N` or `B`, `BOOL: false`, or
`NULL: false` — is returned by `convertDynamoDBValue` as the wrapper
object itself, never decoded; wrappers with truthy scalar payloads
decode to the payload (the string, the parsed number, `true`). -/
theorem convertDynamoDBValue_spec :
    (∀ v : DDBValue, ddbPayloadFalsy v = true →
      convertDynamoDBValue v = JSVal.wrapped v) ∧
    (∀ s : String, ¬ s = "" →
      convertDynamoDBValue (DDBValue.S s) = JSVal.str s) ∧
    convertDynamoDBValue (DDBValue.BOOL true) = JSVal.bool true ∧
    (∀ s : String, ¬ s = "" →
      convertDynamoDBValue (DDBValue.N s) = JSVal.num (jsNumber s)) := by
  refine ⟨?_, ?_, by simp [convertDynamoDBValue], ?_⟩
  · intro v hv
    cases v with
    | S s =>
      simp only [ddbPayloadFalsy, decide_eq_true_eq] at hv
      simp [convertDynamoDBValue, hv]
    | N s =>
      simp only [ddbPayloadFalsy, decide_eq_true_eq] at hv
      simp [convertDynamoDBValue, hv]
    | B s =>
      simp only [ddbPayloadFalsy, decide_eq_true_eq] at hv
      simp [convertDynamoDBValue, hv]
    | BOOL b =>
      simp only [ddbPayloadFalsy, Bool.not_eq_true'] at hv
      simp [convertDynamoDBValue, hv]
    | NULL b =>
      simp only [ddbPayloadFalsy, Bool.not_eq_true'] at hv
      simp [convertDynamoDBValue, hv]
    | L xs => simp [ddbPayloadFalsy] at hv
    | M kvs => simp [ddbPayloadFalsy] at hv
    | SS xs => simp [ddbPayloadFalsy] at hv
    | NS xs => simp [ddbPayloadFalsy] at hv
    | BS xs => simp [ddbPayloadFalsy] at hv
  · intro s hs
    simp [convertDynamoDBValue, hs]
  · intro s hs
    simp [convertDynamoDBValue, hs]

/-- Claim C10 witness: the decode contract at concrete wrappers — the
falsy `{S: ""}` and `{BOOL: false}` come back as the raw wrappers, while
`{S: "pending"}` and `{N: "3"}` decode to their payloads. -/
theorem convertDynamoDBValue_spec_witness :
    convertDynamoDBValue (DDBValue.S "") = JSVal.wrapped (DDBValue.S "") ∧
    convertDynamoDBValue (DDBValue.BOOL false)
      = JSVal.wrapped (DDBValue.BOOL false) ∧
    convertDynamoDBValue (DDBValue.S "pending") = JSVal.str "pending" ∧
    convertDynamoDBValue (DDBValue.N "3") = JSVal.num (jsNumber "3") :=
  ⟨convertDynamoDBValue_spec.1 (DDBValue.S "") (by decide),
   convertDynamoDBValue_spec.1 (DDBValue.BOOL false) (by decide),
   convertDynamoDBValue_spec.2.1 "pending" (by decide),
   convertDynamoDBValue_spec.2.2.2 "3" (by decide)⟩

end Notif
